import Mathlib

/-
Shallow embedding of the `saworz/recruitment-task` repository.

The repository fetches NBP exchange rates, builds a pandas DataFrame with a
calendar-date column, per-currency columns `<CODE>/PLN`, and derived columns
`EUR/USD` and `CHF/USD`, and persists it as a CSV file.  A Flask blueprint
(`src/backend/src/routes/routes.py`) queries and exports the persisted table.

Modelling conventions:
- a pandas cell is modelled by `Cell`: NaN (missing), plus or minus infinity,
  or a finite value as an exact rational (decimal literals in the source are
  taken at their decimal value);
- a DataFrame is column-oriented: an ordered association list from column
  names to cell lists.  The `Date` column is an ordinary column, as in pandas;
  a calendar date is modelled by its day number (an integer): the source's
  `strftime("%Y-%m-%d")` formatting is injective on day numbers, so equality
  tests on formatted dates coincide with equality tests on day numbers;
- fallible code (pandas `KeyError` on a missing column) is modelled with
  `Option`; caught exceptions become explicit outcome constructors.
-/

namespace Recruitment

/-- Pandas cell value: NaN (missing), positive or negative infinity, or a
finite number modelled as an exact rational. -/
inductive Cell where
  | nan : Cell
  | inf : Cell
  | ninf : Cell
  | num : ℚ → Cell
deriving DecidableEq, Repr

/-- Elementwise division of pandas/numpy series values: NaN propagates, a
nonzero value divided by zero gives a signed infinity, and `0/0` gives NaN
(no exception is raised, unlike Python scalar division). -/
def Cell.div : Cell → Cell → Cell
  | .nan, _ => .nan
  | _, .nan => .nan
  | .num a, .num b =>
      if b = 0 then (if a = 0 then .nan else if 0 < a then .inf else .ninf)
      else .num (a / b)
  | .inf, .num b => if b < 0 then .ninf else .inf
  | .ninf, .num b => if b < 0 then .inf else .ninf
  | .num _, .inf => .num 0
  | .num _, .ninf => .num 0
  | _, .inf => .nan
  | _, .ninf => .nan

/-- Floor of a rational as an integer (`Int.fdiv` is floor division). -/
def zfloor (q : ℚ) : ℤ := Int.fdiv q.num (q.den : ℤ)

/-- Round a rational to the nearest integer, ties to even, as numpy rounding
does. -/
def roundHalfEven (q : ℚ) : ℤ :=
  let f : ℤ := zfloor q
  let frac : ℚ := q - (f : ℚ)
  if frac < 1 / 2 then f
  else if 1 / 2 < frac then f + 1
  else if f % 2 = 0 then f else f + 1

/-- Model of `.round(4)` on a finite value: round to 4 decimal places. -/
def round4 (q : ℚ) : ℚ := (roundHalfEven (q * 10000) : ℚ) / 10000

/-- Model of pandas `.round(4)` on one cell: NaN and infinities are
unchanged, finite values are rounded to 4 decimal places. -/
def Cell.round4 : Cell → Cell
  | .num q => .num (Recruitment.round4 q)
  | c => c

/-- Ordered association list of columns, the raw content of a DataFrame. -/
abbrev Cols := List (String × List Cell)

/-- Look up a column by name (first occurrence). -/
def getCols : Cols → String → Option (List Cell)
  | [], _ => none
  | p :: ps, n => if p.1 = n then some p.2 else getCols ps n

/-- Model of pandas column assignment `df[n] = col`: overwrite the column if
the name exists, otherwise append it on the right. -/
def setCols : Cols → String → List Cell → Cols
  | [], n, col => [(n, col)]
  | p :: ps, n, col => if p.1 = n then (n, col) :: ps else p :: setCols ps n col

/-- A pandas DataFrame: ordered named columns of cells.  All frames built by
the embedded code are rectangular (all columns have the same length). -/
structure DataFrame where
  cols : Cols
deriving DecidableEq, Repr

/-- Column names of a frame, in order. -/
def DataFrame.colNames (df : DataFrame) : List String := df.cols.map Prod.fst

/-- Model of `df[n]` for a single column label: `none` models `KeyError`. -/
def DataFrame.getCol (df : DataFrame) (n : String) : Option (List Cell) :=
  getCols df.cols n

/-- Model of `df[n] = col`. -/
def DataFrame.setCol (df : DataFrame) (n : String) (col : List Cell) : DataFrame :=
  ⟨setCols df.cols n col⟩

/-- Number of rows of a (rectangular) frame: the length of its first column. -/
def DataFrame.nrows (df : DataFrame) : ℕ :=
  match df.cols with
  | [] => 0
  | c :: _ => c.2.length

/-- Fetch configuration shared by `NbpFetcher` and `CsvConverter`:
`days_to_start` and `days_to_end` count days before "now". -/
structure FetchConfig where
  days_to_start : ℤ
  days_to_end : ℤ
deriving DecidableEq, Repr

/-- Model of Python `range(a, b, -1)`: the integers `a, a-1, ..., b+1`
(empty when `a ≤ b`). -/
def pyRangeDown (a b : ℤ) : List ℤ :=
  (List.range (a - b).toNat).map (fun (k : ℕ) => a - (k : ℤ))

/-- Day numbers produced by `get_dates_column`'s `dates_range` comprehension:
`datetime.now() - timedelta(days=i)` for `i` in
`range(days_to_start - 1, days_to_end - 1, -1)`, where `now` is today's day
number. -/
def datesInts (now : ℤ) (cfg : FetchConfig) : List ℤ :=
  (pyRangeDown (cfg.days_to_start - 1) (cfg.days_to_end - 1)).map (fun i => now - i)

/-- Model of `CsvConverter.get_dates_column` (identical in
`src/backend/src/utils/csv_converting.py` and `src/backend/nbp_api.py`):
a one-column frame whose `Date` column holds the formatted dates. -/
def get_dates_column (now : ℤ) (cfg : FetchConfig) : DataFrame :=
  ⟨[("Date", (datesInts now cfg).map Cell.num)]⟩

/-- One fetched observation: `(effectiveDate, mid)` from the NBP response. -/
abbrev Obs := ℤ × ℚ

/-- Model of the `pd.merge(df, rates_df, how="left", left_on="Date",
right_on="effectiveDate")` step followed by `df[key] = merged_df[key]`: each
date cell gets the `mid` of the observation with a matching `effectiveDate`,
or NaN when there is none.  NBP observations carry distinct dates, so the
first match is the match. -/
def leftJoinColumn (dates : List Cell) (obs : List Obs) : List Cell :=
  dates.map (fun d =>
    match obs.find? (fun o => Cell.num (o.1 : ℚ) = d) with
    | some o => .num o.2
    | none => .nan)

/-- Model of `CsvConverter.calculate_rates`: adds `EUR/USD` and `CHF/USD` as
the elementwise quotients of the PLN-quoted columns, rounded to 4 decimals.
`none` models the `KeyError` raised when one of `EUR/PLN`, `USD/PLN`,
`CHF/PLN` is not a column of the frame (the exception propagates before the
frame is returned, so the partially mutated frame is discarded either way). -/
def calculate_rates (df : DataFrame) : Option DataFrame :=
  match df.getCol "EUR/PLN", df.getCol "USD/PLN", df.getCol "CHF/PLN" with
  | some eur, some usd, some chf =>
      some ((df.setCol "EUR/USD"
              (List.zipWith (fun a b => (Cell.div a b).round4) eur usd)).setCol
            "CHF/USD"
              (List.zipWith (fun a b => (Cell.div a b).round4) chf usd))
  | _, _, _ => none

/-- Model of `CsvConverter.create_rates_df`: start from the dates frame,
left-join each fetched currency's observations as a column named by its key,
then compute the derived columns. -/
def create_rates_df (now : ℤ) (cfg : FetchConfig)
    (exchange_rates : List (String × List Obs)) : Option DataFrame :=
  let base := get_dates_column now cfg
  let dates := (datesInts now cfg).map Cell.num
  calculate_rates
    (exchange_rates.foldl (fun df kv => df.setCol kv.1 (leftJoinColumn dates kv.2)) base)

/-- Model of `pd.concat([f1, f2])`: row-stack two frames.  The resulting
columns are those of `f1` followed by the columns of `f2` not already
present; a column absent from one frame contributes NaN for that frame's
rows. -/
def concatPart (df : DataFrame) (n : String) : List Cell :=
  match df.getCol n with
  | some col => col
  | none => List.replicate df.nrows .nan

/-- Model of `pd.concat([f1, f2])`. -/
def pdConcat (f1 f2 : DataFrame) : DataFrame :=
  ⟨(f1.colNames ++ (f2.colNames.filter (fun n => !f1.colNames.contains n))).map
    (fun n => (n, concatPart f1 n ++ concatPart f2 n))⟩

/-- Row-keep mask of `drop_duplicates(keep="last")` over one key column:
position `i` survives exactly when no later position holds the same key. -/
def keepLastMask : List Cell → List Bool
  | [] => []
  | k :: ks => (!ks.contains k) :: keepLastMask ks

/-- Keep the entries of `xs` whose mask bit is true. -/
def filterMask (mask : List Bool) (xs : List Cell) : List Cell :=
  (mask.zip xs).filterMap (fun p => if p.1 then some p.2 else none)

/-- Model of `df.drop_duplicates(subset=["Date"], keep="last")`: keep, for
each date, only its last row.  `none` models the `KeyError` raised when the
frame has no `Date` column. -/
def drop_duplicates_Date_keepLast (df : DataFrame) : Option DataFrame :=
  (df.getCol "Date").map (fun dates =>
    let mask := keepLastMask dates
    ⟨df.cols.map (fun p => (p.1, filterMask mask p.2))⟩)

/-- CSV file written by `to_csv`: a header row of column names and the data
rows. -/
structure CsvOut where
  header : List String
  rows : List (List Cell)
deriving DecidableEq, Repr

/-- Model of `df.to_csv(path, index=idx)`: with `idx = true` (pandas
default) an extra leading column is written: an empty header entry and the
integer row index; with `idx = false` only the frame's own columns are
written. -/
def DataFrame.to_csv (df : DataFrame) (idx : Bool) : CsvOut :=
  let dataRows := (List.range df.nrows).map (fun i => df.cols.map (fun p => p.2.getD i .nan))
  if idx then
    { header := "" :: df.colNames
      rows := (List.range df.nrows).map
        (fun (i : ℕ) => Cell.num (i : ℚ) :: df.cols.map (fun p => p.2.getD i .nan)) }
  else
    { header := df.colNames, rows := dataRows }

/-- Outcome of one `save_rates` call, mirroring its logging:
`nothingToSave` is the early return with `logging.error("No exchange rates
to save")`; `saved` is a successful write with the info log; `ioError` is an
exception raised inside the `try` block, caught and logged; `crash` is an
exception raised by `create_rates_df()` itself, which the source evaluates
BEFORE entering the `try` block, so it propagates out of `save_rates`
uncaught. -/
inductive SaveOutcome where
  | nothingToSave : SaveOutcome
  | saved : SaveOutcome
  | ioError : SaveOutcome
  | crash : SaveOutcome
deriving DecidableEq, Repr

/-- State after a `save_rates` call: the content of
`all_currency_data.csv` (as the frame a later read recovers), the CSV
actually written by this call (if any), and the outcome. -/
structure SaveResult where
  fs : Option DataFrame
  written : Option CsvOut
  outcome : SaveOutcome
deriving DecidableEq, Repr

/-- Model of `CsvConverter.save_rates` in
`src/backend/src/utils/csv_converting.py` (the variant that deduplicates on
`Date`, keeping the last occurrence).  `fs` is the current file content
(`none` when `os.path.exists` is false), and `ioFail` models a file-system
exception inside the `try` block (caught and logged). -/
def save_rates_utils (fs : Option DataFrame) (now : ℤ) (cfg : FetchConfig)
    (exchange_rates : List (String × List Obs)) (ioFail : Bool) : SaveResult :=
  if exchange_rates.length = 0 then ⟨fs, none, .nothingToSave⟩
  else
    match create_rates_df now cfg exchange_rates with
    | none => ⟨fs, none, .crash⟩
    | some df =>
      if ioFail then ⟨fs, none, .ioError⟩
      else
        match fs with
        | some existing_df =>
          match drop_duplicates_Date_keepLast (pdConcat existing_df df) with
          | some merged => ⟨some merged, some (merged.to_csv false), .saved⟩
          | none => ⟨fs, none, .ioError⟩
        | none => ⟨some df, some (df.to_csv false), .saved⟩

/-- Model of `CsvConverter.save_rates` in `src/backend/nbp_api.py`: identical
except that when the file already exists it only concatenates
(`pd.concat([existing_df, df])`) with NO `drop_duplicates` step. -/
def save_rates_nbp (fs : Option DataFrame) (now : ℤ) (cfg : FetchConfig)
    (exchange_rates : List (String × List Obs)) (ioFail : Bool) : SaveResult :=
  if exchange_rates.length = 0 then ⟨fs, none, .nothingToSave⟩
  else
    match create_rates_df now cfg exchange_rates with
    | none => ⟨fs, none, .crash⟩
    | some df =>
      if ioFail then ⟨fs, none, .ioError⟩
      else
        match fs with
        | some existing_df =>
          let merged := pdConcat existing_df df
          ⟨some merged, some (merged.to_csv false), .saved⟩
        | none => ⟨some df, some (df.to_csv false), .saved⟩

/-- JSON body of an NBP response, restricted to what `fetch` inspects: the
optional `rates` field (a list of `{effectiveDate, mid}` observations);
`rates = none` models a JSON object without a `rates` key. -/
structure JsonBody where
  rates : Option (List Obs)
deriving DecidableEq, Repr

/-- Body of an HTTP response as seen by `response.json()`: either not valid
JSON (the call raises `ValueError`) or a parsed JSON object. -/
inductive Body where
  | notJson : Body
  | json : JsonBody → Body
deriving DecidableEq, Repr

/-- Outcome of `requests.get`: a transport-level exception
(`requests.RequestException`) or a response with a status code and body. -/
inductive HttpResponse where
  | transportError : HttpResponse
  | status : ℕ → Body → HttpResponse
deriving DecidableEq, Repr

/-- Result of one `NbpFetcher.fetch` call in `src/backend/nbp_api.py`:
`ok` returns `data["rates"]`; `noneLogged` is any caught-and-logged failure
path (the function returns `None`); `uncaughtKeyError` models
`data["rates"]` raising `KeyError` on a 200 JSON response without a `rates`
key — `KeyError` is neither `requests.RequestException` nor `ValueError`,
so the surrounding handlers do not catch it and it propagates to the
caller. -/
inductive FetchResult where
  | ok : List Obs → FetchResult
  | noneLogged : FetchResult
  | uncaughtKeyError : FetchResult
deriving DecidableEq, Repr

/-- Model of `NbpFetcher.fetch` in `src/backend/nbp_api.py`.
`raise_for_status` raises `requests.HTTPError` (a `RequestException`,
caught) for status codes of 400 and above; a 200 response is parsed
(`ValueError` from `.json()` is caught) and indexed at `"rates"`; any other
sub-400 status takes the logged `else` branch and returns `None`. -/
def fetch_backend (resp : HttpResponse) : FetchResult :=
  match resp with
  | .transportError => .noneLogged
  | .status code body =>
      if 400 ≤ code then .noneLogged
      else if code = 200 then
        match body with
        | .notJson => .noneLogged
        | .json b =>
            match b.rates with
            | some obs => .ok obs
            | none => .uncaughtKeyError
      else .noneLogged

/-- Response message of a route, one constructor per literal message string
built in `src/backend/src/routes/routes.py` (see `msgText`).  `saveError`
carries the column labels that pandas' `KeyError` names when `df[pairs]`
selects labels not in the frame; `saveErrorOther` is the same handler
catching a different exception (for example the missing `currency_pairs`
key of the posted JSON body). -/
inductive Msg where
  | readOk : Msg
  | queryOk : Msg
  | analyzeOk : Msg
  | loadError : Msg
  | noCurrencies : Msg
  | saveOk : List String → Msg
  | saveError : List String → Msg
  | saveErrorOther : Msg
  | incorrectRequest : Msg
deriving DecidableEq, Repr

/-- Literal `message` strings of the routes (for `saveOk` and `saveError`
the interpolated part is the rendered list of labels). -/
def msgText : Msg → String
  | .readOk => "CSV file read successfully"
  | .queryOk => "CSV file queried successfully"
  | .analyzeOk => "Data analyzed successfully"
  | .loadError => "Error loading exchange rates"
  | .noCurrencies => "No currencies to query received"
  | .saveOk pairs =>
      "Exchange rates for " ++ String.intercalate ", " pairs ++
        " saved successfully to selected_currency_data.csv"
  | .saveError missing =>
      "Error while saving exchange rates: " ++ String.intercalate ", " missing ++
        " not in index"
  | .saveErrorOther => "Error while saving exchange rates"
  | .incorrectRequest => "Incorrect request"

/-- Observable result of one route call: whether `read_file` was invoked,
the CSV written at `SELECTED_CURRENCY_CSV_FILEPATH` (if any), the HTTP
status code, and the response message. -/
structure RouteResult where
  fileRead : Bool
  written : Option CsvOut
  status : ℕ
  message : Msg
deriving DecidableEq, Repr

/-- Modelled from the spec: `read_file` lives in
`src/backend/src/utils/read_csv.py`, which is not among the sources; per the
spec (PersistenceStore `load() -> RateTable | absent`, QueryService) it
returns the persisted table, or `None` when the file is absent or
unreadable.  Routes therefore take the read outcome as an explicit
`Option DataFrame` argument. -/
def read_file_result (fs : Option DataFrame) : Option DataFrame := fs

/-- Modelled from the spec: `get_currencies_list` lives in
`src/backend/src/utils/df_convert.py`, which is not among the sources; per
the spec (`list_columns`) it returns the column identifiers present,
excluding the date column. -/
def get_currencies_list (df : DataFrame) : List String :=
  df.colNames.filter (fun n => n ≠ "Date")

/-- Modelled from the spec: `get_rates_dict` lives in
`src/backend/src/utils/df_convert.py`, which is not among the sources; per
the spec (`get_rows`) it returns raw values for the requested columns,
degrading to missing results for unknown columns. -/
def get_rates_dict (df : DataFrame) (requested : List String) :
    List (String × List Cell) :=
  requested.filterMap (fun n => (df.getCol n).map (fun c => (n, c)))

/-- Model of the `get_currency_types` route: read the file, answer 500 with
the load-error message when the read yields no frame, else 200 with the
currency list. -/
def get_currency_types (readResult : Option DataFrame) :
    RouteResult × Option (List String) :=
  match read_file_result readResult with
  | none => (⟨true, none, 500, .loadError⟩, none)
  | some df => (⟨true, none, 200, .readOk⟩, some (get_currencies_list df))

/-- Model of the `get_exchange_rates` route: with no `currencies` parameter
answer 404 before any file read; otherwise read the file, answer 500 on a
failed read, else 200 with the rates dictionary. -/
def get_exchange_rates (requested : List String) (readResult : Option DataFrame) :
    RouteResult × Option (List (String × List Cell)) :=
  if requested.isEmpty then (⟨false, none, 404, .noCurrencies⟩, none)
  else
    match read_file_result readResult with
    | none => (⟨true, none, 500, .loadError⟩, none)
    | some df => (⟨true, none, 200, .queryOk⟩, some (get_rates_dict df requested))

/-- Values of a cell list that pandas statistics see: NaN cells are skipped
(`skipna`), finite values are kept.  The converter writes only finite or
NaN cells unless a zero `USD/PLN` rate ever occurs, so infinite cells are
also skipped here and the statistics theorems restrict to frames without
them. -/
def presentVals (col : List Cell) : List ℚ :=
  col.filterMap (fun c => match c with | .num q => some q | _ => none)

/-- Mean of a list of rationals, `none` on the empty list (pandas NaN). -/
def omean (xs : List ℚ) : Option ℚ :=
  if xs.isEmpty then none else some (xs.sum / (xs.length : ℚ))

/-- Insert a value into an ascending-sorted list, keeping it sorted. -/
def insertSorted (x : ℚ) : List ℚ → List ℚ
  | [] => [x]
  | y :: ys => if x ≤ y then x :: y :: ys else y :: insertSorted x ys

/-- Sort ascending (insertion sort; the statistic only needs the sorted
order, as in numpy's median). -/
def sortQ (xs : List ℚ) : List ℚ := xs.foldr insertSorted []

/-- Median as pandas computes it: middle of the sorted values, or the mean
of the two middles for an even count; `none` on the empty list. -/
def omedian (xs : List ℚ) : Option ℚ :=
  let s := sortQ xs
  if s.length = 0 then none
  else if s.length % 2 = 1 then some (s.getD (s.length / 2) 0)
  else some ((s.getD (s.length / 2 - 1) 0 + s.getD (s.length / 2) 0) / 2)

/-- Minimum, `none` on the empty list. -/
def ominV (xs : List ℚ) : Option ℚ :=
  match xs with
  | [] => none
  | x :: rest => some (rest.foldl min x)

/-- Maximum, `none` on the empty list. -/
def omaxV (xs : List ℚ) : Option ℚ :=
  match xs with
  | [] => none
  | x :: rest => some (rest.foldl max x)

/-- Result of Python `round(stat, 4)` on a statistic: NaN when the statistic
is undefined (empty column), otherwise the value rounded to 4 decimals. -/
def cellOfStat (o : Option ℚ) : Cell :=
  match o with
  | none => .nan
  | some q => .num (round4 q)

/-- The four statistics the `analyze_data` route reports per column. -/
structure Summary where
  average_value : Cell
  median_value : Cell
  min_value : Cell
  max_value : Cell
deriving DecidableEq, Repr

/-- Per-column body of the `analyze_data` loop:
`round(col.mean(), 4)`, `round(col.median(), 4)`, `round(col.min(), 4)`,
`round(col.max(), 4)`, with NaN cells skipped by the pandas statistics. -/
def summarize (col : List Cell) : Summary :=
  let xs := presentVals col
  ⟨cellOfStat (omean xs), cellOfStat (omedian xs),
   cellOfStat (ominV xs), cellOfStat (omaxV xs)⟩

/-- Model of `df.filter(requested)`: the requested columns that exist, in
request order. -/
def dfFilter (df : DataFrame) (requested : List String) :
    List (String × List Cell) :=
  requested.filterMap (fun n => (df.getCol n).map (fun c => (n, c)))

/-- Model of the `analyze_data` route: with no `currencies` parameter answer
404 before any file read; otherwise read the file, answer 500 on a failed
read, else 200 with the per-column summaries of the filtered frame. -/
def analyze_data (requested : List String) (readResult : Option DataFrame) :
    RouteResult × Option (List (String × Summary)) :=
  if requested.isEmpty then (⟨false, none, 404, .noCurrencies⟩, none)
  else
    match read_file_result readResult with
    | none => (⟨true, none, 500, .loadError⟩, none)
    | some df =>
        (⟨true, none, 200, .analyzeOk⟩,
         some ((dfFilter df requested).map (fun p => (p.1, summarize p.2))))

/-- Model of `df[pairs]` for a list of labels: `KeyError` naming the labels
not in the frame when any is missing, else the selected sub-frame in request
order. -/
def selectColsList (df : DataFrame) (pairs : List String) :
    Except (List String) DataFrame :=
  let missing := pairs.filter (fun n => !df.colNames.contains n)
  if missing.isEmpty then
    .ok ⟨pairs.map (fun n => (n, (df.getCol n).getD []))⟩
  else .error missing

/-- Model of the `save_exchange_rates` route: a non-JSON request answers
400; a JSON body without a `currency_pairs` key raises `KeyError` inside
the `try`, caught as a 500 (`body = none`, before any read); a failed read
answers 500; selecting a missing label raises pandas' `KeyError`, caught as
a 500 naming the missing labels, with nothing written; otherwise the
selected frame is written via `to_csv` with the pandas default
`index=True`. -/
def save_exchange_rates (isJson : Bool) (body : Option (List String))
    (readResult : Option DataFrame) : RouteResult :=
  if isJson then
    match body with
    | none => ⟨false, none, 500, .saveErrorOther⟩
    | some pairs =>
        match read_file_result readResult with
        | none => ⟨true, none, 500, .loadError⟩
        | some df =>
            match selectColsList df pairs with
            | .ok sel => ⟨true, some (sel.to_csv true), 200, .saveOk pairs⟩
            | .error missing => ⟨true, none, 500, .saveError missing⟩
  else ⟨false, none, 400, .incorrectRequest⟩

/-! Helper lemmas shared by the claim theorems. -/

/-- Assigning a column and reading it back yields that column. -/
theorem getCols_setCols_self (ps : Cols) (n : String) (col : List Cell) :
    getCols (setCols ps n col) n = some col := by
  induction ps with
  | nil => simp [setCols, getCols]
  | cons p ps ih =>
      by_cases hp : p.1 = n
      · simp [setCols, getCols, hp]
      · simp [setCols, getCols, hp, ih]

/-- Assigning a column leaves every other column unchanged. -/
theorem getCols_setCols_other (ps : Cols) {n m : String} (h : m ≠ n)
    (col : List Cell) : getCols (setCols ps n col) m = getCols ps m := by
  induction ps with
  | nil => simp [setCols, getCols, Ne.symm h]
  | cons p ps ih =>
      by_cases hp : p.1 = n
      · simp [setCols, getCols, hp, Ne.symm h]
      · simp [setCols, getCols, hp, ih]

/-- Concrete fetched-observations map for the first save of the persistence
scenario: fetched at day 10 with window config (2, 0), so dates 9 and 10,
all three currencies quoted at 4. -/
def obsFirst : List (String × List Obs) :=
  [("EUR/PLN", [(9, 4), (10, 4)]),
   ("USD/PLN", [(9, 4), (10, 4)]),
   ("CHF/PLN", [(9, 4), (10, 4)])]

/-- Concrete fetched-observations map for the second save: fetched at day 11
with the same window config, so dates 10 and 11, all three currencies quoted
at 5 — date 10 is shared with the first save, with fresher values. -/
def obsSecond : List (String × List Obs) :=
  [("EUR/PLN", [(10, 5), (11, 5)]),
   ("USD/PLN", [(10, 5), (11, 5)]),
   ("CHF/PLN", [(10, 5), (11, 5)])]

/-- File content after two successive saves through the
`csv_converting.py` variant. -/
def twoSavesUtils : Option DataFrame :=
  (save_rates_utils
    (save_rates_utils none 10 ⟨2, 0⟩ obsFirst false).fs 11 ⟨2, 0⟩ obsSecond false).fs

/-- File content after two successive saves through the `nbp_api.py`
variant. -/
def twoSavesNbp : Option DataFrame :=
  (save_rates_nbp
    (save_rates_nbp none 10 ⟨2, 0⟩ obsFirst false).fs 11 ⟨2, 0⟩ obsSecond false).fs

/-- C1: after two successive saves whose tables share date 10, the
`csv_converting.py` variant of `save_rates` keeps exactly one row for the
shared date, carrying the second call's values (5, not the stale 4), and its
`Date` column holds no duplicate; but the `src/backend/nbp_api.py` variant
of `save_rates` only concatenates, leaving two rows for date 10, so the
claimed deduplication invariant fails on that variant. -/
theorem c1_save_dedup_vs_concat :
    ((twoSavesUtils.bind (fun df => df.getCol "Date")).getD []).count (Cell.num 10) = 1
  ∧ (twoSavesUtils.bind (fun df => df.getCol "Date")) =
      some [Cell.num 9, Cell.num 10, Cell.num 11]
  ∧ (twoSavesUtils.bind (fun df => df.getCol "USD/PLN")) =
      some [Cell.num 4, Cell.num 5, Cell.num 5]
  ∧ (twoSavesUtils.bind (fun df => df.getCol "EUR/PLN")) =
      some [Cell.num 4, Cell.num 5, Cell.num 5]
  ∧ ((twoSavesNbp.bind (fun df => df.getCol "Date")).getD []).count (Cell.num 10) = 2 := by
  refine ⟨?_, ?_, ?_, ?_, ?_⟩ <;> decide

/-- C3: the fetch-and-save cycle can raise uncaught exceptions.  A 200
response whose JSON body lacks the `rates` field makes
`NbpFetcher.fetch` raise `KeyError` (uncaught, since only
`requests.RequestException` and `ValueError` are handled); and a nonempty
fetched-observations map missing one of the three base currencies (a
partial cycle) makes `save_rates` raise `KeyError` from
`calculate_rates`, uncaught because `create_rates_df()` is evaluated before
the `try` block.  Transport errors, error statuses and non-JSON bodies are,
as claimed, converted to the logged no-data outcome. -/
theorem c3_uncaught_exception_paths :
    fetch_backend (.status 200 (.json ⟨none⟩)) = .uncaughtKeyError
  ∧ (save_rates_utils none 10 ⟨2, 0⟩ [("USD/PLN", [(9, 4), (10, 4)])] false).outcome
      = .crash
  ∧ (save_rates_nbp none 10 ⟨2, 0⟩ [("USD/PLN", [(9, 4), (10, 4)])] false).outcome
      = .crash
  ∧ fetch_backend .transportError = .noneLogged
  ∧ fetch_backend (.status 404 (.json ⟨none⟩)) = .noneLogged
  ∧ fetch_backend (.status 200 .notJson) = .noneLogged := by
  refine ⟨?_, ?_, ?_, ?_, ?_, ?_⟩ <;> decide

/-- C4: for `days_to_start ≥ days_to_end`, the date axis built by
`get_dates_column` has exactly `days_to_start − days_to_end` rows and its
entries are exactly the consecutive days from `now − days_to_start + 1`
through `now − days_to_end` inclusive. -/
theorem c4_dates_column_window (now s e : ℤ) (h : e ≤ s) :
    (get_dates_column now ⟨s, e⟩).getCol "Date"
        = some ((datesInts now ⟨s, e⟩).map Cell.num)
  ∧ ((datesInts now ⟨s, e⟩).length : ℤ) = s - e
  ∧ (∀ x : ℤ, x ∈ datesInts now ⟨s, e⟩ ↔ now - s + 1 ≤ x ∧ x ≤ now - e) := by
  have key : datesInts now ⟨s, e⟩
      = (List.range (s - e).toNat).map (fun (k : ℕ) => now - s + 1 + (k : ℤ)) := by
    unfold datesInts pyRangeDown
    rw [List.map_map]
    have hn : ((s - 1 : ℤ) - (e - 1)).toNat = (s - e).toNat := by omega
    rw [hn]
    exact List.map_congr_left (fun k _ => by simp only [Function.comp_apply]; ring)
  refine ⟨rfl, ?_, ?_⟩
  · rw [key]
    simp only [List.length_map, List.length_range]
    omega
  · intro x
    rw [key]
    simp only [List.mem_map, List.mem_range]
    constructor
    · rintro ⟨k, hk, rfl⟩
      omega
    · rintro ⟨h1, h2⟩
      exact ⟨(x - (now - s + 1)).toNat, by omega, by omega⟩

/-- C4 witness: the configuration (3, 1) at day 100 gives the two
consecutive days 98 and 99. -/
theorem c4_dates_column_window_witness :
    (1 : ℤ) ≤ 3
  ∧ ((get_dates_column 100 ⟨3, 1⟩).getCol "Date"
        = some ((datesInts 100 ⟨3, 1⟩).map Cell.num)
    ∧ ((datesInts 100 ⟨3, 1⟩).length : ℤ) = 3 - 1
    ∧ (∀ x : ℤ, x ∈ datesInts 100 ⟨3, 1⟩ ↔ 100 - 3 + 1 ≤ x ∧ x ≤ 100 - 1)) :=
  ⟨by decide, c4_dates_column_window 100 3 1 (by decide)⟩

/-- C5: whenever the read of the persisted table yields no frame, each of
the three query routes (with a nonempty currencies parameter where one is
taken) short-circuits to status 500 with the load-error message, no export
file written and no payload returned; the message is the literal
"Error loading exchange rates". -/
theorem c5_load_failure_short_circuits (requested : List String)
    (h : requested ≠ []) :
    get_currency_types none = (⟨true, none, 500, .loadError⟩, none)
  ∧ get_exchange_rates requested none = (⟨true, none, 500, .loadError⟩, none)
  ∧ analyze_data requested none = (⟨true, none, 500, .loadError⟩, none)
  ∧ msgText .loadError = "Error loading exchange rates" := by
  cases requested with
  | nil => exact absurd rfl h
  | cons a as => exact ⟨rfl, rfl, rfl, rfl⟩

/-- C5 witness: the load-failure short-circuit at the concrete request
`["USD/PLN"]`. -/
theorem c5_load_failure_short_circuits_witness :
    ["USD/PLN"] ≠ ([] : List String)
  ∧ (get_currency_types none = (⟨true, none, 500, .loadError⟩, none)
    ∧ get_exchange_rates ["USD/PLN"] none = (⟨true, none, 500, .loadError⟩, none)
    ∧ analyze_data ["USD/PLN"] none = (⟨true, none, 500, .loadError⟩, none)
    ∧ msgText .loadError = "Error loading exchange rates") :=
  ⟨by decide, c5_load_failure_short_circuits ["USD/PLN"] (by decide)⟩

/-- C8: a save with an empty fetched-observations map leaves the file
untouched, writes nothing, and ends in the logged nothing-to-save outcome —
in both variants of `save_rates`. -/
theorem c8_empty_rates_nothing_saved (fs : Option DataFrame) (now : ℤ)
    (cfg : FetchConfig) (ioFail : Bool) :
    save_rates_utils fs now cfg [] ioFail = ⟨fs, none, .nothingToSave⟩
  ∧ save_rates_nbp fs now cfg [] ioFail = ⟨fs, none, .nothingToSave⟩ :=
  ⟨rfl, rfl⟩

/-- C9: the `get_exchange_rates` route with no currencies parameter answers
404 with the no-currencies message (literally
"No currencies to query received") without reading the persisted file,
whatever state the file is in. -/
theorem c9_no_currencies_404 (readResult : Option DataFrame) :
    get_exchange_rates [] readResult = (⟨false, none, 404, .noCurrencies⟩, none)
  ∧ msgText .noCurrencies = "No currencies to query received" :=
  ⟨rfl, rfl⟩

/-- C6: when the posted column set contains labels not in the persisted
table, the export route answers 500, writes no file, reports the failure,
and the report carries exactly the labels of the offending (missing)
columns. -/
theorem c6_export_invalid_column (df : DataFrame) (pairs : List String)
    (h : pairs.filter (fun n => !df.colNames.contains n) ≠ []) :
    save_exchange_rates true (some pairs) (some df) =
      ⟨true, none, 500, .saveError (pairs.filter (fun n => !df.colNames.contains n))⟩
  ∧ (∀ n, n ∈ pairs.filter (fun m => !df.colNames.contains m) ↔
        (n ∈ pairs ∧ n ∉ df.colNames)) := by
  constructor
  · have hempty : (pairs.filter (fun n => !df.colNames.contains n)).isEmpty = false := by
      cases hfil : pairs.filter (fun n => !df.colNames.contains n) with
      | nil => exact absurd hfil h
      | cons a as => rfl
    have hsel : selectColsList df pairs
        = Except.error (pairs.filter (fun n => !df.colNames.contains n)) := by
      simp only [selectColsList]
      rw [hempty]
      rfl
    simp [save_exchange_rates, read_file_result, hsel]
  · intro n
    simp [List.mem_filter]

/-- C6 witness: requesting `["EUR/PLN", "NONEXISTENT"]` against a table with
columns `Date` and `EUR/PLN` fails with 500, names `NONEXISTENT`, and
writes nothing. -/
theorem c6_export_invalid_column_witness :
    (["EUR/PLN", "NONEXISTENT"].filter
        (fun n => !(DataFrame.mk [("Date", []), ("EUR/PLN", [])]).colNames.contains n)
      ≠ [])
  ∧ (save_exchange_rates true (some ["EUR/PLN", "NONEXISTENT"])
        (some (DataFrame.mk [("Date", []), ("EUR/PLN", [])])) =
        ⟨true, none, 500,
         .saveError (["EUR/PLN", "NONEXISTENT"].filter
           (fun n => !(DataFrame.mk [("Date", []), ("EUR/PLN", [])]).colNames.contains n))⟩
    ∧ (∀ n, n ∈ ["EUR/PLN", "NONEXISTENT"].filter
          (fun m => !(DataFrame.mk [("Date", []), ("EUR/PLN", [])]).colNames.contains m) ↔
        (n ∈ ["EUR/PLN", "NONEXISTENT"]
          ∧ n ∉ (DataFrame.mk [("Date", []), ("EUR/PLN", [])]).colNames))) :=
  ⟨by decide,
   c6_export_invalid_column (DataFrame.mk [("Date", []), ("EUR/PLN", [])])
     ["EUR/PLN", "NONEXISTENT"] (by decide)⟩

/-- A cell that carries either no value or a value rounded to 4 decimal
places. -/
def isRounded4 (c : Cell) : Prop := c = Cell.nan ∨ ∃ q : ℚ, c = Cell.num (round4 q)

/-- Rounding a statistic always yields NaN or a 4-decimal-rounded value. -/
theorem isRounded4_cellOfStat (o : Option ℚ) : isRounded4 (cellOfStat o) := by
  cases o with
  | none => exact Or.inl rfl
  | some q => exact Or.inr ⟨q, rfl⟩

/-- The statistics see exactly the present (non-missing) values. -/
theorem presentVals_map_num (xs : List ℚ) : presentVals (xs.map Cell.num) = xs := by
  induction xs with
  | nil => rfl
  | cons x xs ih => simpa [presentVals] using ih

/-- C7: for a requested column present in the table, `analyze_data` answers
200 with that column's four statistics; the statistics ignore missing
values (they are unchanged when the column is replaced by just its present
values); each reported value is NaN or rounded to 4 decimals; and on the
concrete values [4.00, 4.10, 4.20] the result is average 4.10, median 4.10,
min 4.00, max 4.20. -/
theorem c7_summary_statistics (df : DataFrame) (n : String) (col : List Cell)
    (h : df.getCol n = some col) :
    (analyze_data [n] (some df)).2 = some [(n, summarize col)]
  ∧ (analyze_data [n] (some df)).1.status = 200
  ∧ summarize col = summarize ((presentVals col).map Cell.num)
  ∧ (isRounded4 (summarize col).average_value
      ∧ isRounded4 (summarize col).median_value
      ∧ isRounded4 (summarize col).min_value
      ∧ isRounded4 (summarize col).max_value)
  ∧ summarize [Cell.num 4, Cell.num (41 / 10), Cell.num (42 / 10)]
      = ⟨Cell.num (41 / 10), Cell.num (41 / 10), Cell.num 4, Cell.num (42 / 10)⟩ := by
  refine ⟨?_, rfl, ?_, ⟨isRounded4_cellOfStat _, isRounded4_cellOfStat _,
    isRounded4_cellOfStat _, isRounded4_cellOfStat _⟩, ?_⟩
  · simp [analyze_data, read_file_result, dfFilter, h]
  · simp [summarize, presentVals_map_num]
  · have hxs : presentVals [Cell.num 4, Cell.num (41 / 10), Cell.num (42 / 10)]
        = [4, 41 / 10, 42 / 10] := rfl
    have hsort : sortQ [(4 : ℚ), 41 / 10, 42 / 10] = [4, 41 / 10, 42 / 10] := by
      norm_num [sortQ, insertSorted]
    have hm : omean [(4 : ℚ), 41 / 10, 42 / 10] = some (41 / 10) := by
      simp [omean]
      norm_num
    have hmed : omedian [(4 : ℚ), 41 / 10, 42 / 10] = some (41 / 10) := by
      simp [omedian, hsort]
    have hmin : ominV [(4 : ℚ), 41 / 10, 42 / 10] = some 4 := by
      norm_num [ominV, min_def]
    have hmax : omaxV [(4 : ℚ), 41 / 10, 42 / 10] = some (42 / 10) := by
      norm_num [omaxV, max_def]
    have hr1 : round4 ((41 : ℚ) / 10) = 41 / 10 := by
      norm_num [round4, roundHalfEven, zfloor]
    have hr2 : round4 ((4 : ℚ)) = 4 := by
      norm_num [round4, roundHalfEven, zfloor]
    have hr3 : round4 ((42 : ℚ) / 10) = 42 / 10 := by
      norm_num [round4, roundHalfEven, zfloor]
    simp only [summarize, hxs, hm, hmed, hmin, hmax, cellOfStat, hr1, hr2, hr3]

/-- C7 witness: the statistics of the `USD/PLN` column [4.00, NaN, 4.10,
4.20]. -/
theorem c7_summary_statistics_witness :
    (DataFrame.mk [("USD/PLN",
        [Cell.num 4, Cell.nan, Cell.num (41 / 10), Cell.num (42 / 10)])]).getCol
        "USD/PLN" = some [Cell.num 4, Cell.nan, Cell.num (41 / 10), Cell.num (42 / 10)]
  ∧ ((analyze_data ["USD/PLN"]
        (some (DataFrame.mk [("USD/PLN",
          [Cell.num 4, Cell.nan, Cell.num (41 / 10), Cell.num (42 / 10)])]))).2 =
        some [("USD/PLN",
          summarize [Cell.num 4, Cell.nan, Cell.num (41 / 10), Cell.num (42 / 10)])]
    ∧ (analyze_data ["USD/PLN"]
        (some (DataFrame.mk [("USD/PLN",
          [Cell.num 4, Cell.nan, Cell.num (41 / 10), Cell.num (42 / 10)])]))).1.status = 200
    ∧ summarize [Cell.num 4, Cell.nan, Cell.num (41 / 10), Cell.num (42 / 10)]
        = summarize ((presentVals
            [Cell.num 4, Cell.nan, Cell.num (41 / 10), Cell.num (42 / 10)]).map Cell.num)
    ∧ (isRounded4 (summarize [Cell.num 4, Cell.nan, Cell.num (41 / 10),
          Cell.num (42 / 10)]).average_value
        ∧ isRounded4 (summarize [Cell.num 4, Cell.nan, Cell.num (41 / 10),
            Cell.num (42 / 10)]).median_value
        ∧ isRounded4 (summarize [Cell.num 4, Cell.nan, Cell.num (41 / 10),
            Cell.num (42 / 10)]).min_value
        ∧ isRounded4 (summarize [Cell.num 4, Cell.nan, Cell.num (41 / 10),
            Cell.num (42 / 10)]).max_value)
    ∧ summarize [Cell.num 4, Cell.num (41 / 10), Cell.num (42 / 10)]
        = ⟨Cell.num (41 / 10), Cell.num (41 / 10), Cell.num 4, Cell.num (42 / 10)⟩) :=
  ⟨rfl, c7_summary_statistics
    (DataFrame.mk [("USD/PLN",
      [Cell.num 4, Cell.nan, Cell.num (41 / 10), Cell.num (42 / 10)])])
    "USD/PLN" [Cell.num 4, Cell.nan, Cell.num (41 / 10), Cell.num (42 / 10)] rfl⟩

/-- Pointwise specification of a derived cross-rate column `d` with
numerator column `numc` and denominator column `denc`: where both inputs
are present numbers and the denominator is nonzero, the derived cell is the
rounded quotient; where an input is missing the derived cell is missing;
and a present numerator over a zero denominator never yields a number (it
yields NaN or a signed infinity, not a crash). -/
def derivedOk (numc denc d : List Cell) : Prop :=
  (∀ (i : ℕ) (a b : ℚ), numc[i]? = some (Cell.num a) → denc[i]? = some (Cell.num b) →
      b ≠ 0 → d[i]? = some (Cell.num (round4 (a / b))))
  ∧ (∀ i : ℕ, i < numc.length → i < denc.length →
      (numc[i]? = some Cell.nan ∨ denc[i]? = some Cell.nan) → d[i]? = some Cell.nan)
  ∧ (∀ (i : ℕ) (a : ℚ), numc[i]? = some (Cell.num a) → denc[i]? = some (Cell.num 0) →
      ∀ q : ℚ, d[i]? ≠ some (Cell.num q))

/-- The elementwise divide-and-round column satisfies the pointwise
cross-rate specification. -/
theorem derivedOk_zipWith (numc denc : List Cell) :
    derivedOk numc denc (List.zipWith (fun a b => (Cell.div a b).round4) numc denc) := by
  refine ⟨?_, ?_, ?_⟩
  · intro i a b ha hb hbne
    rw [List.getElem?_zipWith, ha, hb]
    simp [Cell.div, Cell.round4, hbne]
  · intro i hin hid hor
    have hx : numc[i]? = some numc[i] := List.getElem?_eq_getElem hin
    have hy : denc[i]? = some denc[i] := List.getElem?_eq_getElem hid
    rcases hor with h1 | h1
    · rw [List.getElem?_zipWith, h1, hy]
      cases denc[i] <;> rfl
    · rw [List.getElem?_zipWith, hx, h1]
      cases numc[i] <;> rfl
  · intro i a ha h0 q hq
    rw [List.getElem?_zipWith, ha, h0] at hq
    by_cases haz : a = 0
    · simp [Cell.div, Cell.round4, haz] at hq
    · by_cases hpos : 0 < a <;> simp [Cell.div, Cell.round4, haz, hpos] at hq

/-- C2: whenever the frame carries the three base columns `EUR/PLN`,
`USD/PLN` and `CHF/PLN`, `calculate_rates` succeeds (no fatal error) and the
derived `EUR/USD` and `CHF/USD` columns are the elementwise quotients
rounded to 4 decimals, satisfying the pointwise specification: rounded
quotient where both inputs are present with a nonzero denominator, missing
where an input is missing, and a non-number (never a crash) on division of
a present value by zero. -/
theorem c2_derived_cross_rates (df : DataFrame) (eurs usds chfs : List Cell)
    (hE : df.getCol "EUR/PLN" = some eurs)
    (hU : df.getCol "USD/PLN" = some usds)
    (hC : df.getCol "CHF/PLN" = some chfs) :
    ∃ t', calculate_rates df = some t'
      ∧ t'.getCol "EUR/USD"
          = some (List.zipWith (fun a b => (Cell.div a b).round4) eurs usds)
      ∧ t'.getCol "CHF/USD"
          = some (List.zipWith (fun a b => (Cell.div a b).round4) chfs usds)
      ∧ derivedOk eurs usds (List.zipWith (fun a b => (Cell.div a b).round4) eurs usds)
      ∧ derivedOk chfs usds (List.zipWith (fun a b => (Cell.div a b).round4) chfs usds) := by
  refine ⟨(df.setCol "EUR/USD"
      (List.zipWith (fun a b => (Cell.div a b).round4) eurs usds)).setCol "CHF/USD"
      (List.zipWith (fun a b => (Cell.div a b).round4) chfs usds),
    ?_, ?_, ?_, derivedOk_zipWith _ _, derivedOk_zipWith _ _⟩
  · unfold calculate_rates
    rw [hE, hU, hC]
  · show getCols (setCols (setCols df.cols "EUR/USD" _) "CHF/USD" _) "EUR/USD" = _
    rw [getCols_setCols_other _ (by decide), getCols_setCols_self]
  · show getCols (setCols (setCols df.cols "EUR/USD" _) "CHF/USD" _) "CHF/USD" = _
    rw [getCols_setCols_self]

/-- Concrete frame for the C2 witness: one row with both inputs present and
a nonzero denominator, one row with a missing numerator, one row with a
present numerator over a zero denominator. -/
def c2Frame : DataFrame :=
  ⟨[("EUR/PLN", [Cell.num 4, Cell.nan, Cell.num 3]),
    ("USD/PLN", [Cell.num 2, Cell.num 2, Cell.num 0]),
    ("CHF/PLN", [Cell.num 9, Cell.num 1, Cell.nan])]⟩

/-- C2 witness: the derived-column specification at the concrete frame
`c2Frame`. -/
theorem c2_derived_cross_rates_witness :
    (c2Frame.getCol "EUR/PLN" = some [Cell.num 4, Cell.nan, Cell.num 3]
      ∧ c2Frame.getCol "USD/PLN" = some [Cell.num 2, Cell.num 2, Cell.num 0]
      ∧ c2Frame.getCol "CHF/PLN" = some [Cell.num 9, Cell.num 1, Cell.nan])
  ∧ (∃ t', calculate_rates c2Frame = some t'
      ∧ t'.getCol "EUR/USD"
          = some (List.zipWith (fun a b => (Cell.div a b).round4)
              [Cell.num 4, Cell.nan, Cell.num 3] [Cell.num 2, Cell.num 2, Cell.num 0])
      ∧ t'.getCol "CHF/USD"
          = some (List.zipWith (fun a b => (Cell.div a b).round4)
              [Cell.num 9, Cell.num 1, Cell.nan] [Cell.num 2, Cell.num 2, Cell.num 0])
      ∧ derivedOk [Cell.num 4, Cell.nan, Cell.num 3] [Cell.num 2, Cell.num 2, Cell.num 0]
          (List.zipWith (fun a b => (Cell.div a b).round4)
            [Cell.num 4, Cell.nan, Cell.num 3] [Cell.num 2, Cell.num 2, Cell.num 0])
      ∧ derivedOk [Cell.num 9, Cell.num 1, Cell.nan] [Cell.num 2, Cell.num 2, Cell.num 0]
          (List.zipWith (fun a b => (Cell.div a b).round4)
            [Cell.num 9, Cell.num 1, Cell.nan] [Cell.num 2, Cell.num 2, Cell.num 0])) :=
  ⟨⟨rfl, rfl, rfl⟩,
   c2_derived_cross_rates c2Frame
     [Cell.num 4, Cell.nan, Cell.num 3] [Cell.num 2, Cell.num 2, Cell.num 0]
     [Cell.num 9, Cell.num 1, Cell.nan] rfl rfl rfl⟩

/-- With `index=True`, the written header gains a leading empty entry. -/
theorem to_csv_true_header (df : DataFrame) :
    (df.to_csv true).header = "" :: df.colNames := rfl

/-- With `index=True`, every written row gains the leading row index. -/
theorem to_csv_true_rows (df : DataFrame) :
    (df.to_csv true).rows = (List.range df.nrows).map
      (fun (i : ℕ) => Cell.num (i : ℚ) :: df.cols.map (fun p => p.2.getD i .nan)) := rfl

/-- C10: a successful export through `save_exchange_rates` writes a file
whose header is an empty-named leading column followed by the requested
columns, and whose every row starts with the integer row index — the
pandas-default `index=True` of `filtered_df.to_csv(...)`; by contrast the
main table save (`df.to_csv(..., index=False)` in `save_rates`) writes no
such index column: its leading column is `Date` itself, as the concrete
save of `obsFirst` shows. -/
theorem c10_export_has_index_column (df : DataFrame) (pairs : List String)
    (h : pairs.filter (fun n => !df.colNames.contains n) = []) :
    (∃ out, (save_exchange_rates true (some pairs) (some df)).written = some out
      ∧ out.header = "" :: pairs
      ∧ ∀ (i : ℕ) (r : List Cell), out.rows[i]? = some r →
          r.head? = some (Cell.num (i : ℚ)))
  ∧ (save_rates_utils none 10 ⟨2, 0⟩ obsFirst false).written.map CsvOut.header
      = some ["Date", "EUR/PLN", "USD/PLN", "CHF/PLN", "EUR/USD", "CHF/USD"] := by
  constructor
  · have hsel : selectColsList df pairs
        = Except.ok ⟨pairs.map (fun n => (n, (df.getCol n).getD []))⟩ := by
      simp only [selectColsList]
      rw [h]
      rfl
    refine ⟨(DataFrame.mk (pairs.map (fun n => (n, (df.getCol n).getD [])))).to_csv true,
      ?_, ?_, ?_⟩
    · simp [save_exchange_rates, read_file_result, hsel]
    · have hcomp : (Prod.fst ∘ fun n => (n, (df.getCol n).getD ([] : List Cell))) = id := rfl
      simp only [to_csv_true_header, DataFrame.colNames, DataFrame.mk.injEq,
        List.map_map, hcomp, List.map_id]
    · intro i r hr
      rw [to_csv_true_rows, List.getElem?_map] at hr
      cases hro : (List.range
          (DataFrame.mk (pairs.map (fun n => (n, (df.getCol n).getD [])))).nrows)[i]? with
      | none =>
          rw [hro] at hr
          exact Option.noConfusion hr
      | some k =>
          obtain ⟨hi, hk⟩ := List.getElem?_eq_some_iff.mp hro
          rw [List.getElem_range] at hk
          rw [hro] at hr
          subst hk
          rw [Option.map_some'] at hr
          rw [← Option.some_inj.mp hr]
          rfl
  · decide

/-- C10 witness: exporting the single existing column `EUR/PLN` from a
two-column table. -/
theorem c10_export_has_index_column_witness :
    ((["EUR/PLN"].filter
        (fun n => !(DataFrame.mk [("Date", [Cell.num 1]),
          ("EUR/PLN", [Cell.num 4])]).colNames.contains n)) = [])
  ∧ ((∃ out, (save_exchange_rates true (some ["EUR/PLN"])
        (some (DataFrame.mk [("Date", [Cell.num 1]), ("EUR/PLN", [Cell.num 4])]))).written
          = some out
      ∧ out.header = "" :: ["EUR/PLN"]
      ∧ ∀ (i : ℕ) (r : List Cell), out.rows[i]? = some r →
          r.head? = some (Cell.num (i : ℚ)))
    ∧ (save_rates_utils none 10 ⟨2, 0⟩ obsFirst false).written.map CsvOut.header
        = some ["Date", "EUR/PLN", "USD/PLN", "CHF/PLN", "EUR/USD", "CHF/USD"]) :=
  ⟨by decide,
   c10_export_has_index_column
     (DataFrame.mk [("Date", [Cell.num 1]), ("EUR/PLN", [Cell.num 4])])
     ["EUR/PLN"] (by decide)⟩

end Recruitment
